import Mathlib

/-!
Verification development for `beater/otlp/grpc.go` of apm-server.

The file shallowly embeds the OTLP gRPC adapter: the per-call monitoring
counters (`gRPCTracesMonitoringMap`, `gRPCMetricsMonitoringMap`), the
monitored consumer's `ConsumeTraces` / `ConsumeMetrics` methods, the
current-monitored-consumer slot, the snapshot reporter
`collectMetricsMonitoring`, and the registration entry point
`RegisterGRPCServices`.

External collaborators are black boxes, exactly as the source treats them:
the downstream `otel.Consumer`'s per-call outcome is an input of each
consume call (an `Option Err`, `none` meaning success), and its `Stats()`
snapshot is an opaque value carried by the consumer. Counters are the
monotonically increasing integers of the monitoring registry. Go errors are
modelled by their message string; `errors.Wrap(err, msg)` produces the
message `msg ++ ": " ++ err`. Logging is modelled by the list of log
records a call emits, and the monitoring visitor by the list of visitor
events the reporter feeds it.
-/

/-- A Go error, modelled by its message. `none` in an `Option Err` position
means the operation succeeded (a nil error). -/
abbrev Err := String

/-- `pkg/errors.Wrap(err, msg)`: the wrapped error's message is
`msg + ": " + err`. -/
def errorsWrap (err : Err) (msg : String) : Err := msg ++ ": " ++ err

/-- The result ids of `monitoringKeys` in `grpc.go` (from the
`beater/request` package). -/
inductive ResultID where
  | IDRequestCount
  | IDResponseCount
  | IDResponseErrorsCount
  | IDResponseValidCount
deriving DecidableEq, Repr

/-- `monitoringKeys` from `grpc.go`: the four result ids each registry gets
a counter for. -/
def monitoringKeys : List ResultID :=
  [ResultID.IDRequestCount, ResultID.IDResponseCount,
   ResultID.IDResponseErrorsCount, ResultID.IDResponseValidCount]

/-- A monitoring map (`map[request.ResultID]*monitoring.Int`): counter
values indexed by result id. -/
def MonitoringMap := ResultID → Nat

/-- `monitoring.Int.Inc()` on the counter at key `k` of map `m`. -/
def inc (m : MonitoringMap) (k : ResultID) : MonitoringMap :=
  fun q => if q = k then m q + 1 else m q

/-- Modelled from the spec: the downstream batch processor
(`model.BatchProcessor`, not under src/) is an opaque collaborator; only
its identity matters to the adapter. -/
structure BatchProcessor where
  id : Nat
deriving DecidableEq, Repr

/-- Modelled from the spec: the Stats Snapshot returned by the downstream
processor's `Stats()` (`processor/otel`, not under src/), carrying the
unsupported-items-dropped count. -/
structure ConsumerStats where
  unsupportedMetricsDropped : Int
deriving DecidableEq, Repr

/-- Modelled from the spec: `otel.Consumer` (`processor/otel`, not under
src/), the downstream processor, a black box holding its processor and the
point-in-time Stats Snapshot its `Stats()` currently returns. A freshly
constructed consumer's internal drop counters are zero-valued. -/
structure OtelConsumer where
  processor : BatchProcessor
  stats : ConsumerStats
deriving DecidableEq, Repr

/-- `monitoredConsumer` from `grpc.go`. The logger field carries no state
that the claims observe; a call's log output is modelled as a list of log
records it emits. -/
structure monitoredConsumer where
  consumer : OtelConsumer
deriving DecidableEq, Repr

/-- Severity of an emitted log record. -/
inductive LogLevel where
  | error
  | info
deriving DecidableEq, Repr

/-- A structured log record: severity, message, and the attached error
(`logp.Error(err)`). -/
structure LogRecord where
  level : LogLevel
  message : String
  err : Option Err
deriving DecidableEq, Repr

/-- The observable sub-steps of one consume call, in the order they
execute, used to state the intra-call ordering guarantees. `ret` marks the
call returning to its caller; the deferred `ResponseCount` increment runs
before it on every exit path. -/
inductive CallEvent where
  | incRequestCount
  | downstreamCall
  | incResponseErrorsCount
  | incResponseValidCount
  | incResponseCount
  | ret
deriving DecidableEq, Repr

/-- The package-level mutable state of `grpc.go`: the two counter maps and
the current-monitored-consumer slot. -/
structure OtlpState where
  tracesMap : MonitoringMap
  metricsMap : MonitoringMap
  currentMonitoredConsumer : Option monitoredConsumer

/-- The state at process start: all counters zero, no consumer ever
installed. -/
def initialOtlpState : OtlpState :=
  { tracesMap := fun _ => 0
    metricsMap := fun _ => 0
    currentMonitoredConsumer := none }

/-- What one consume call produces: the updated package state, the value
returned to the caller, the log records emitted, and the ordered trace of
its observable sub-steps. -/
structure ConsumeResult where
  state : OtlpState
  ret : Option Err
  logs : List LogRecord
  events : List CallEvent

/-- `monitoredConsumer.ConsumeTraces` from `grpc.go`. `downstream` is the
value returned by the black-box `c.consumer.ConsumeTraces(ctx, traces)`
(`none` = nil error). The method increments `IDRequestCount`, defers an
increment of `IDResponseCount` (which therefore runs last, after the
error/valid increment, on every exit path), delegates, and on error
increments `IDResponseErrorsCount`, logs at error severity and returns the
error unchanged; on success it increments `IDResponseValidCount` and
returns nil. -/
def monitoredConsumer.ConsumeTraces (_c : monitoredConsumer)
    (downstream : Option Err) (s : OtlpState) : ConsumeResult :=
  let m1 := inc s.tracesMap ResultID.IDRequestCount
  match downstream with
  | some err =>
    { state := { s with
        tracesMap := inc (inc m1 ResultID.IDResponseErrorsCount) ResultID.IDResponseCount }
      ret := some err
      logs := [{ level := LogLevel.error
                 message := "ConsumeTraces returned an error"
                 err := some err }]
      events := [CallEvent.incRequestCount, CallEvent.downstreamCall,
                 CallEvent.incResponseErrorsCount, CallEvent.incResponseCount,
                 CallEvent.ret] }
  | none =>
    { state := { s with
        tracesMap := inc (inc m1 ResultID.IDResponseValidCount) ResultID.IDResponseCount }
      ret := none
      logs := []
      events := [CallEvent.incRequestCount, CallEvent.downstreamCall,
                 CallEvent.incResponseValidCount, CallEvent.incResponseCount,
                 CallEvent.ret] }

/-- `monitoredConsumer.ConsumeMetrics` from `grpc.go`: identical to
`ConsumeTraces` but on the metrics counter map and with the metrics log
message. -/
def monitoredConsumer.ConsumeMetrics (_c : monitoredConsumer)
    (downstream : Option Err) (s : OtlpState) : ConsumeResult :=
  let m1 := inc s.metricsMap ResultID.IDRequestCount
  match downstream with
  | some err =>
    { state := { s with
        metricsMap := inc (inc m1 ResultID.IDResponseErrorsCount) ResultID.IDResponseCount }
      ret := some err
      logs := [{ level := LogLevel.error
                 message := "ConsumeMetrics returned an error"
                 err := some err }]
      events := [CallEvent.incRequestCount, CallEvent.downstreamCall,
                 CallEvent.incResponseErrorsCount, CallEvent.incResponseCount,
                 CallEvent.ret] }
  | none =>
    { state := { s with
        metricsMap := inc (inc m1 ResultID.IDResponseValidCount) ResultID.IDResponseCount }
      ret := none
      logs := []
      events := [CallEvent.incRequestCount, CallEvent.downstreamCall,
                 CallEvent.incResponseValidCount, CallEvent.incResponseCount,
                 CallEvent.ret] }

/-- One inbound call in an interleaved sequence: which kind it is, the
receiver, and the black-box downstream outcome. -/
inductive GRPCCall where
  | traces (c : monitoredConsumer) (downstream : Option Err)
  | metrics (c : monitoredConsumer) (downstream : Option Err)

/-- Run a finite sequence of completed consume calls, threading the
package state. -/
def runCalls : List GRPCCall → OtlpState → OtlpState
  | [], s => s
  | GRPCCall.traces c d :: rest, s =>
      runCalls rest (monitoredConsumer.ConsumeTraces c d s).state
  | GRPCCall.metrics c d :: rest, s =>
      runCalls rest (monitoredConsumer.ConsumeMetrics c d s).state

/-- Whether a call is a `ConsumeTraces` call. -/
def isTracesCall : GRPCCall → Bool
  | GRPCCall.traces _ _ => true
  | GRPCCall.metrics _ _ => false

/-- Whether a call is a `ConsumeTraces` call whose downstream consume
failed. -/
def isFailedTracesCall : GRPCCall → Bool
  | GRPCCall.traces _ (some _) => true
  | _ => false

/-- Whether a call is a `ConsumeTraces` call whose downstream consume
succeeded. -/
def isValidTracesCall : GRPCCall → Bool
  | GRPCCall.traces _ none => true
  | _ => false

/-- Whether a call is a `ConsumeMetrics` call. -/
def isMetricsCall : GRPCCall → Bool
  | GRPCCall.metrics _ _ => true
  | GRPCCall.traces _ _ => false

/-- Whether a call is a `ConsumeMetrics` call whose downstream consume
failed. -/
def isFailedMetricsCall : GRPCCall → Bool
  | GRPCCall.metrics _ (some _) => true
  | _ => false

/-- Whether a call is a `ConsumeMetrics` call whose downstream consume
succeeded. -/
def isValidMetricsCall : GRPCCall → Bool
  | GRPCCall.metrics _ none => true
  | _ => false

/-- The visitor events a snapshot report feeds the monitoring exporter's
visitor: registry start/finish markers, a key name, an integer value. -/
inductive VisitorEvent where
  | registryStart
  | registryFinished
  | key (name : String)
  | intVal (value : Int)
deriving DecidableEq, Repr

/-- libbeat's `monitoring.ReportInt(V, name, value)` (external library):
emits the key and the integer value. -/
def monitoring.ReportInt (name : String) (value : Int) : List VisitorEvent :=
  [VisitorEvent.key name, VisitorEvent.intVal value]

/-- libbeat's `monitoring.ReportNamespace(V, name, f)` (external library):
emits the key, opens a registry, runs the body, closes the registry. -/
def monitoring.ReportNamespace (name : String) (inner : List VisitorEvent) :
    List VisitorEvent :=
  [VisitorEvent.key name, VisitorEvent.registryStart] ++ inner ++
    [VisitorEvent.registryFinished]

/-- The integer values a visitor event trace reports, in order. -/
def intVals (es : List VisitorEvent) : List Int :=
  es.filterMap fun e =>
    match e with
    | VisitorEvent.intVal v => some v
    | _ => none

/-- `monitoredConsumer.collectMetricsMonitoring` from `grpc.go`: opens and
immediately closes the top-level registry (start/finish with no fields in
between), reads the black-box `c.consumer.Stats()` snapshot, and reports
its `UnsupportedMetricsDropped` as `unsupported_dropped` inside a
`consumer` namespace. Its Go type returns nothing, so no error can reach
the exporter. -/
def monitoredConsumer.collectMetricsMonitoring (c : monitoredConsumer) :
    List VisitorEvent :=
  [VisitorEvent.registryStart, VisitorEvent.registryFinished] ++
    monitoring.ReportNamespace "consumer"
      (monitoring.ReportInt "unsupported_dropped"
        c.consumer.stats.unsupportedMetricsDropped)

/-- `setCurrentMonitoredConsumer` from `grpc.go`: overwrite the single
current-monitored-consumer slot (last write wins, no history). -/
def setCurrentMonitoredConsumer (c : monitoredConsumer) (s : OtlpState) :
    OtlpState :=
  { s with currentMonitoredConsumer := some c }

/-- The package-level `collectMetricsMonitoring` from `grpc.go`, the
callback registered for the `consumer` entry: reads the current
monitored consumer under the read lock; if none was ever installed it does
nothing (no visitor events at all), otherwise it delegates to the
consumer's method. Its Go type returns nothing, so no error can reach the
exporter. -/
def collectMetricsMonitoring (s : OtlpState) : List VisitorEvent :=
  match s.currentMonitoredConsumer with
  | none => []
  | some c => c.collectMetricsMonitoring

/-- An entry of a monitoring registry: a counter named by its result id,
or a function entry (`monitoring.NewFunc`) named by a string. -/
inductive RegistryEntry where
  | counter (id : ResultID)
  | func (name : String)
deriving DecidableEq, Repr

/-- `request.MonitoringMapForRegistry(registry, keys)`: registers one
counter per result id. -/
def MonitoringMapForRegistry (keys : List ResultID) : List RegistryEntry :=
  keys.map RegistryEntry.counter

/-- The entries of `gRPCTracesRegistry`
(`apm-server.otlp.grpc.traces`): only the four call counters from
`monitoringKeys`; nothing else is ever registered on it. -/
def gRPCTracesRegistryEntries : List RegistryEntry :=
  MonitoringMapForRegistry monitoringKeys

/-- The entries of `gRPCMetricsRegistry`
(`apm-server.otlp.grpc.metrics`): the four call counters plus the
`consumer` function entry added by `grpc.go`'s package initializer via
`monitoring.NewFunc(gRPCMetricsRegistry, "consumer",
collectMetricsMonitoring, monitoring.Report)`. -/
def gRPCMetricsRegistryEntries : List RegistryEntry :=
  MonitoringMapForRegistry monitoringKeys ++ [RegistryEntry.func "consumer"]

/-- The observable sub-steps of `RegisterGRPCServices`, in execution
order. -/
inductive RegEvent where
  | setCurrent
  | registerTraceReceiver
  | registerMetricsReceiver
deriving DecidableEq, Repr

/-- What `RegisterGRPCServices` produces: the updated package state, the
returned error, and the ordered trace of its observable sub-steps. -/
structure RegisterResult where
  state : OtlpState
  err : Option Err
  events : List RegEvent

/-- The monitored consumer `RegisterGRPCServices` constructs:
`&monitoredConsumer{consumer: &otel.Consumer{Processor: processor}, ...}`.
The fresh `otel.Consumer`'s internal drop counters are zero-valued. -/
def newMonitoredConsumer (processor : BatchProcessor) : monitoredConsumer :=
  { consumer := { processor := processor
                  stats := { unsupportedMetricsDropped := 0 } } }

/-- `RegisterGRPCServices` from `grpc.go`. `traceRegErr` and
`metricsRegErr` are the black-box outcomes of
`otlpreceiver.RegisterTraceReceiver` and
`otlpreceiver.RegisterMetricsReceiver` (`none` = nil error). The function
constructs the monitored consumer, installs it into the
current-monitored-consumer slot, then registers the trace receiver — on
failure returning `errors.Wrap(err, "failed to register OTLP trace
receiver")` without attempting the metrics registration — then registers
the metrics receiver, on failure returning `errors.Wrap(err, "failed to
register OTLP metrics receiver")`, and otherwise returns nil. -/
def RegisterGRPCServices (processor : BatchProcessor)
    (traceRegErr metricsRegErr : Option Err) (s : OtlpState) :
    RegisterResult :=
  let consumer := newMonitoredConsumer processor
  let s1 := setCurrentMonitoredConsumer consumer s
  match traceRegErr with
  | some err =>
    { state := s1
      err := some (errorsWrap err "failed to register OTLP trace receiver")
      events := [RegEvent.setCurrent, RegEvent.registerTraceReceiver] }
  | none =>
    match metricsRegErr with
    | some err =>
      { state := s1
        err := some (errorsWrap err "failed to register OTLP metrics receiver")
        events := [RegEvent.setCurrent, RegEvent.registerTraceReceiver,
                   RegEvent.registerMetricsReceiver] }
    | none =>
      { state := s1
        err := none
        events := [RegEvent.setCurrent, RegEvent.registerTraceReceiver,
                   RegEvent.registerMetricsReceiver] }

/-- `a` occurs strictly before `b` in the event trace `es`. -/
def eventBefore (es : List CallEvent) (a b : CallEvent) : Prop :=
  ∃ i j : Nat, i < j ∧ es[i]? = some a ∧ es[j]? = some b

/-- A concrete monitored consumer used to instantiate theorems with
hypotheses. -/
def exampleConsumer : monitoredConsumer :=
  { consumer := { processor := { id := 7 }
                  stats := { unsupportedMetricsDropped := 42 } } }

/-- A concrete state in which `exampleConsumer` is the current monitored
consumer. -/
def exampleStateWithConsumer : OtlpState :=
  { initialOtlpState with currentMonitoredConsumer := some exampleConsumer }

/-- How much one consume call adds to its own kind's counter at each key:
request and response always by one, errors by one exactly on failure,
valid by one exactly on success. -/
def consumeDelta (d : Option Err) : ResultID → Nat
  | ResultID.IDRequestCount => 1
  | ResultID.IDResponseCount => 1
  | ResultID.IDResponseErrorsCount => if d.isSome then 1 else 0
  | ResultID.IDResponseValidCount => if d.isSome then 0 else 1

lemma consumeTraces_state_tracesMap (c : monitoredConsumer) (d : Option Err)
    (s : OtlpState) (k : ResultID) :
    (monitoredConsumer.ConsumeTraces c d s).state.tracesMap k =
      s.tracesMap k + consumeDelta d k := by
  cases d <;> cases k <;>
    simp [monitoredConsumer.ConsumeTraces, inc, consumeDelta]

lemma consumeTraces_state_metricsMap (c : monitoredConsumer) (d : Option Err)
    (s : OtlpState) :
    (monitoredConsumer.ConsumeTraces c d s).state.metricsMap = s.metricsMap := by
  cases d <;> rfl

lemma consumeTraces_state_current (c : monitoredConsumer) (d : Option Err)
    (s : OtlpState) :
    (monitoredConsumer.ConsumeTraces c d s).state.currentMonitoredConsumer =
      s.currentMonitoredConsumer := by
  cases d <;> rfl

lemma consumeMetrics_state_metricsMap (c : monitoredConsumer) (d : Option Err)
    (s : OtlpState) (k : ResultID) :
    (monitoredConsumer.ConsumeMetrics c d s).state.metricsMap k =
      s.metricsMap k + consumeDelta d k := by
  cases d <;> cases k <;>
    simp [monitoredConsumer.ConsumeMetrics, inc, consumeDelta]

lemma consumeMetrics_state_tracesMap (c : monitoredConsumer) (d : Option Err)
    (s : OtlpState) :
    (monitoredConsumer.ConsumeMetrics c d s).state.tracesMap = s.tracesMap := by
  cases d <;> rfl

lemma consumeMetrics_state_current (c : monitoredConsumer) (d : Option Err)
    (s : OtlpState) :
    (monitoredConsumer.ConsumeMetrics c d s).state.currentMonitoredConsumer =
      s.currentMonitoredConsumer := by
  cases d <;> rfl

lemma runCalls_traces_req (l : List GRPCCall) (s : OtlpState) :
    (runCalls l s).tracesMap ResultID.IDRequestCount =
      s.tracesMap ResultID.IDRequestCount + l.countP isTracesCall := by
  induction l generalizing s with
  | nil => simp [runCalls]
  | cons a rest ih =>
    cases a with
    | traces c d =>
      rw [runCalls, ih, consumeTraces_state_tracesMap]
      simp [consumeDelta, isTracesCall, List.countP_cons]
      omega
    | metrics c d =>
      rw [runCalls, ih, consumeMetrics_state_tracesMap]
      simp [isTracesCall, List.countP_cons]

lemma runCalls_traces_resp (l : List GRPCCall) (s : OtlpState) :
    (runCalls l s).tracesMap ResultID.IDResponseCount =
      s.tracesMap ResultID.IDResponseCount + l.countP isTracesCall := by
  induction l generalizing s with
  | nil => simp [runCalls]
  | cons a rest ih =>
    cases a with
    | traces c d =>
      rw [runCalls, ih, consumeTraces_state_tracesMap]
      simp [consumeDelta, isTracesCall, List.countP_cons]
      omega
    | metrics c d =>
      rw [runCalls, ih, consumeMetrics_state_tracesMap]
      simp [isTracesCall, List.countP_cons]

lemma runCalls_traces_err (l : List GRPCCall) (s : OtlpState) :
    (runCalls l s).tracesMap ResultID.IDResponseErrorsCount =
      s.tracesMap ResultID.IDResponseErrorsCount +
        l.countP isFailedTracesCall := by
  induction l generalizing s with
  | nil => simp [runCalls]
  | cons a rest ih =>
    cases a with
    | traces c d =>
      rw [runCalls, ih, consumeTraces_state_tracesMap]
      cases d <;>
        simp [consumeDelta, isFailedTracesCall, List.countP_cons] <;> omega
    | metrics c d =>
      rw [runCalls, ih, consumeMetrics_state_tracesMap]
      simp [isFailedTracesCall, List.countP_cons]

lemma runCalls_traces_valid (l : List GRPCCall) (s : OtlpState) :
    (runCalls l s).tracesMap ResultID.IDResponseValidCount =
      s.tracesMap ResultID.IDResponseValidCount +
        l.countP isValidTracesCall := by
  induction l generalizing s with
  | nil => simp [runCalls]
  | cons a rest ih =>
    cases a with
    | traces c d =>
      rw [runCalls, ih, consumeTraces_state_tracesMap]
      cases d <;>
        simp [consumeDelta, isValidTracesCall, List.countP_cons] <;> omega
    | metrics c d =>
      rw [runCalls, ih, consumeMetrics_state_tracesMap]
      simp [isValidTracesCall, List.countP_cons]

lemma runCalls_metrics_req (l : List GRPCCall) (s : OtlpState) :
    (runCalls l s).metricsMap ResultID.IDRequestCount =
      s.metricsMap ResultID.IDRequestCount + l.countP isMetricsCall := by
  induction l generalizing s with
  | nil => simp [runCalls]
  | cons a rest ih =>
    cases a with
    | traces c d =>
      rw [runCalls, ih, consumeTraces_state_metricsMap]
      simp [isMetricsCall, List.countP_cons]
    | metrics c d =>
      rw [runCalls, ih, consumeMetrics_state_metricsMap]
      simp [consumeDelta, isMetricsCall, List.countP_cons]
      omega

lemma runCalls_metrics_resp (l : List GRPCCall) (s : OtlpState) :
    (runCalls l s).metricsMap ResultID.IDResponseCount =
      s.metricsMap ResultID.IDResponseCount + l.countP isMetricsCall := by
  induction l generalizing s with
  | nil => simp [runCalls]
  | cons a rest ih =>
    cases a with
    | traces c d =>
      rw [runCalls, ih, consumeTraces_state_metricsMap]
      simp [isMetricsCall, List.countP_cons]
    | metrics c d =>
      rw [runCalls, ih, consumeMetrics_state_metricsMap]
      simp [consumeDelta, isMetricsCall, List.countP_cons]
      omega

lemma runCalls_metrics_err (l : List GRPCCall) (s : OtlpState) :
    (runCalls l s).metricsMap ResultID.IDResponseErrorsCount =
      s.metricsMap ResultID.IDResponseErrorsCount +
        l.countP isFailedMetricsCall := by
  induction l generalizing s with
  | nil => simp [runCalls]
  | cons a rest ih =>
    cases a with
    | traces c d =>
      rw [runCalls, ih, consumeTraces_state_metricsMap]
      simp [isFailedMetricsCall, List.countP_cons]
    | metrics c d =>
      rw [runCalls, ih, consumeMetrics_state_metricsMap]
      cases d <;>
        simp [consumeDelta, isFailedMetricsCall, List.countP_cons] <;> omega

lemma runCalls_metrics_valid (l : List GRPCCall) (s : OtlpState) :
    (runCalls l s).metricsMap ResultID.IDResponseValidCount =
      s.metricsMap ResultID.IDResponseValidCount +
        l.countP isValidMetricsCall := by
  induction l generalizing s with
  | nil => simp [runCalls]
  | cons a rest ih =>
    cases a with
    | traces c d =>
      rw [runCalls, ih, consumeTraces_state_metricsMap]
      simp [isValidMetricsCall, List.countP_cons]
    | metrics c d =>
      rw [runCalls, ih, consumeMetrics_state_metricsMap]
      cases d <;>
        simp [consumeDelta, isValidMetricsCall, List.countP_cons] <;> omega

lemma traces_total_split (l : List GRPCCall) :
    l.countP isTracesCall =
      l.countP isFailedTracesCall + l.countP isValidTracesCall := by
  induction l with
  | nil => rfl
  | cons a rest ih =>
    cases a with
    | traces c d =>
      cases d <;> simp [isTracesCall, isFailedTracesCall, isValidTracesCall,
        List.countP_cons, ih] <;> omega
    | metrics c d =>
      simp [isTracesCall, isFailedTracesCall, isValidTracesCall,
        List.countP_cons, ih]

lemma metrics_total_split (l : List GRPCCall) :
    l.countP isMetricsCall =
      l.countP isFailedMetricsCall + l.countP isValidMetricsCall := by
  induction l with
  | nil => rfl
  | cons a rest ih =>
    cases a with
    | traces c d =>
      simp [isMetricsCall, isFailedMetricsCall, isValidMetricsCall,
        List.countP_cons, ih]
    | metrics c d =>
      cases d <;> simp [isMetricsCall, isFailedMetricsCall, isValidMetricsCall,
        List.countP_cons, ih] <;> omega

/-- C1: for every finite sequence of completed calls to `ConsumeTraces` and
`ConsumeMetrics` starting from process start, each kind's counter group
independently satisfies: `IDRequestCount` and `IDResponseCount` equal the
number N of calls of that kind, `IDResponseErrorsCount` equals the number K
of those whose downstream consume failed, and `IDResponseValidCount` equals
N − K. -/
theorem C1_call_counts (l : List GRPCCall) :
    (runCalls l initialOtlpState).tracesMap ResultID.IDRequestCount =
      l.countP isTracesCall ∧
    (runCalls l initialOtlpState).tracesMap ResultID.IDResponseCount =
      l.countP isTracesCall ∧
    (runCalls l initialOtlpState).tracesMap ResultID.IDResponseErrorsCount =
      l.countP isFailedTracesCall ∧
    (runCalls l initialOtlpState).tracesMap ResultID.IDResponseValidCount =
      l.countP isTracesCall - l.countP isFailedTracesCall ∧
    (runCalls l initialOtlpState).metricsMap ResultID.IDRequestCount =
      l.countP isMetricsCall ∧
    (runCalls l initialOtlpState).metricsMap ResultID.IDResponseCount =
      l.countP isMetricsCall ∧
    (runCalls l initialOtlpState).metricsMap ResultID.IDResponseErrorsCount =
      l.countP isFailedMetricsCall ∧
    (runCalls l initialOtlpState).metricsMap ResultID.IDResponseValidCount =
      l.countP isMetricsCall - l.countP isFailedMetricsCall := by
  have ht := traces_total_split l
  have hm := metrics_total_split l
  refine ⟨?_, ?_, ?_, ?_, ?_, ?_, ?_, ?_⟩ <;>
    simp [runCalls_traces_req, runCalls_traces_resp, runCalls_traces_err,
      runCalls_traces_valid, runCalls_metrics_req, runCalls_metrics_resp,
      runCalls_metrics_err, runCalls_metrics_valid, initialOtlpState] <;>
    omega

/-- C2: each consume call returns exactly the downstream error value
unchanged (`none` on success), and emits exactly one error-severity log
record carrying that error on failure, and no log on success. -/
theorem C2_error_propagation (c : monitoredConsumer) (d : Option Err)
    (s : OtlpState) :
    ((monitoredConsumer.ConsumeTraces c d s).ret = d ∧
      (monitoredConsumer.ConsumeTraces c d s).logs =
        (match d with
         | some e => [{ level := LogLevel.error
                        message := "ConsumeTraces returned an error"
                        err := some e }]
         | none => [])) ∧
    ((monitoredConsumer.ConsumeMetrics c d s).ret = d ∧
      (monitoredConsumer.ConsumeMetrics c d s).logs =
        (match d with
         | some e => [{ level := LogLevel.error
                        message := "ConsumeMetrics returned an error"
                        err := some e }]
         | none => [])) := by
  cases d <;> exact ⟨⟨rfl, rfl⟩, rfl, rfl⟩

/-- C6: within every single consume call, on every outcome of the
downstream call (success, failure, early return under context
cancellation), the `IDRequestCount` increment happens before the
downstream invocation, which happens before the errors-or-valid increment,
which happens before the deferred `IDResponseCount` increment, which
happens before the call returns. -/
theorem C6_event_order (c : monitoredConsumer) (d : Option Err)
    (s : OtlpState) :
    (eventBefore (monitoredConsumer.ConsumeTraces c d s).events
        CallEvent.incRequestCount CallEvent.downstreamCall ∧
      eventBefore (monitoredConsumer.ConsumeTraces c d s).events
        CallEvent.downstreamCall
        (if d.isSome then CallEvent.incResponseErrorsCount
         else CallEvent.incResponseValidCount) ∧
      eventBefore (monitoredConsumer.ConsumeTraces c d s).events
        (if d.isSome then CallEvent.incResponseErrorsCount
         else CallEvent.incResponseValidCount) CallEvent.incResponseCount ∧
      eventBefore (monitoredConsumer.ConsumeTraces c d s).events
        CallEvent.incResponseCount CallEvent.ret) ∧
    (eventBefore (monitoredConsumer.ConsumeMetrics c d s).events
        CallEvent.incRequestCount CallEvent.downstreamCall ∧
      eventBefore (monitoredConsumer.ConsumeMetrics c d s).events
        CallEvent.downstreamCall
        (if d.isSome then CallEvent.incResponseErrorsCount
         else CallEvent.incResponseValidCount) ∧
      eventBefore (monitoredConsumer.ConsumeMetrics c d s).events
        (if d.isSome then CallEvent.incResponseErrorsCount
         else CallEvent.incResponseValidCount) CallEvent.incResponseCount ∧
      eventBefore (monitoredConsumer.ConsumeMetrics c d s).events
        CallEvent.incResponseCount CallEvent.ret) := by
  cases d <;>
    exact ⟨⟨⟨0, 1, by omega, rfl, rfl⟩, ⟨1, 2, by omega, rfl, rfl⟩,
            ⟨2, 3, by omega, rfl, rfl⟩, ⟨3, 4, by omega, rfl, rfl⟩⟩,
           ⟨⟨0, 1, by omega, rfl, rfl⟩, ⟨1, 2, by omega, rfl, rfl⟩,
            ⟨2, 3, by omega, rfl, rfl⟩, ⟨3, 4, by omega, rfl, rfl⟩⟩⟩

/-- C7: `ConsumeTraces` leaves the metrics counter group (and the
current-consumer slot) unchanged, and `ConsumeMetrics` leaves the traces
counter group (and the current-consumer slot) unchanged, on every call and
every outcome. -/
theorem C7_frame_effect (c : monitoredConsumer) (d : Option Err)
    (s : OtlpState) :
    (monitoredConsumer.ConsumeTraces c d s).state.metricsMap = s.metricsMap ∧
    (monitoredConsumer.ConsumeTraces c d s).state.currentMonitoredConsumer =
      s.currentMonitoredConsumer ∧
    (monitoredConsumer.ConsumeMetrics c d s).state.tracesMap = s.tracesMap ∧
    (monitoredConsumer.ConsumeMetrics c d s).state.currentMonitoredConsumer =
      s.currentMonitoredConsumer := by
  cases d <;> exact ⟨rfl, rfl, rfl, rfl⟩

/-- C3 (counterexample): when the trace-receiver registration fails with
cause `boom`, the entry point's error is `errors.Wrap` with the message
`failed to register OTLP trace receiver`, not with the claimed message
`failed to register trace receiver` — which is not even a substring of the
returned message. -/
theorem C3_message_counterexample :
    (RegisterGRPCServices { id := 0 } (some "boom") none initialOtlpState).err =
      some (errorsWrap "boom" "failed to register OTLP trace receiver") ∧
    (RegisterGRPCServices { id := 0 } (some "boom") none initialOtlpState).err ≠
      some (errorsWrap "boom" "failed to register trace receiver") ∧
    ¬ List.IsInfix "failed to register trace receiver".toList
        "failed to register OTLP trace receiver: boom".toList := by
  refine ⟨rfl, ?_, ?_⟩ <;> decide

/-- C3 (amended): if the trace-receiver registration fails, the entry
point returns the cause wrapped with `failed to register OTLP trace
receiver` and the metrics-receiver registration is never attempted; if the
metrics-receiver registration fails, it returns the cause wrapped with
`failed to register OTLP metrics receiver`; otherwise it returns no
error. -/
theorem C3_registration_errors (p : BatchProcessor)
    (traceRegErr metricsRegErr : Option Err) (s : OtlpState) :
    (RegisterGRPCServices p traceRegErr metricsRegErr s).err =
      (match traceRegErr, metricsRegErr with
       | some e, _ =>
           some (errorsWrap e "failed to register OTLP trace receiver")
       | none, some e =>
           some (errorsWrap e "failed to register OTLP metrics receiver")
       | none, none => none) ∧
    (RegisterGRPCServices p traceRegErr metricsRegErr s).events =
      (match traceRegErr with
       | some _ => [RegEvent.setCurrent, RegEvent.registerTraceReceiver]
       | none => [RegEvent.setCurrent, RegEvent.registerTraceReceiver,
                  RegEvent.registerMetricsReceiver]) := by
  cases traceRegErr <;> cases metricsRegErr <;> exact ⟨rfl, rfl⟩

/-- C9: `RegisterGRPCServices` installs the newly constructed monitored
consumer into the current-consumer slot as its first observable step,
before attempting either receiver registration; hence on every outcome —
including a registration failure — the slot holds the new consumer when
the entry point returns (the entry point is not atomic on error). -/
theorem C9_slot_set_before_registration (p : BatchProcessor)
    (traceRegErr metricsRegErr : Option Err) (s : OtlpState) :
    (RegisterGRPCServices p traceRegErr metricsRegErr
        s).state.currentMonitoredConsumer = some (newMonitoredConsumer p) ∧
    (RegisterGRPCServices p traceRegErr metricsRegErr s).events.head? =
      some RegEvent.setCurrent := by
  cases traceRegErr <;> cases metricsRegErr <;> exact ⟨rfl, rfl⟩

/-- C4 (counterexample): when no consumer has ever been installed, the
snapshot reporter emits no visitor events at all — in particular it never
opens the claimed top-level start/finish report section before reading the
current consumer. -/
theorem C4_reporter_counterexample :
    collectMetricsMonitoring initialOtlpState = [] ∧
    VisitorEvent.registryStart ∉ collectMetricsMonitoring initialOtlpState := by
  refine ⟨rfl, ?_⟩
  simp [collectMetricsMonitoring, initialOtlpState]

/-- C4 (amended): every invocation of the snapshot reporter first reads
the current consumer from the registry; when no consumer has ever been
installed it emits no visitor events and propagates no error to the
exporter (its type has no error channel); when one is installed, it first
opens a top-level report section — start and finish markers with no fields
in between — before reporting anything else. -/
theorem C4_reporter_reads_consumer_first (s : OtlpState) :
    (s.currentMonitoredConsumer = none → collectMetricsMonitoring s = []) ∧
    (∀ c, s.currentMonitoredConsumer = some c →
      (collectMetricsMonitoring s).take 2 =
        [VisitorEvent.registryStart, VisitorEvent.registryFinished]) := by
  constructor
  · intro h
    simp [collectMetricsMonitoring, h]
  · intro c h
    simp [collectMetricsMonitoring, h,
      monitoredConsumer.collectMetricsMonitoring, monitoring.ReportNamespace,
      monitoring.ReportInt]

/-- C4 (witness): the amended reporter behaviour at the empty initial
state and at a state holding a concrete consumer. -/
theorem C4_reporter_witness :
    collectMetricsMonitoring initialOtlpState = [] ∧
    (collectMetricsMonitoring exampleStateWithConsumer).take 2 =
      [VisitorEvent.registryStart, VisitorEvent.registryFinished] :=
  ⟨(C4_reporter_reads_consumer_first initialOtlpState).1 rfl,
   (C4_reporter_reads_consumer_first exampleStateWithConsumer).2
     exampleConsumer rfl⟩

/-- C5: when a current consumer is installed, the snapshot reporter reads
the downstream processor's stats snapshot and writes exactly its
unsupported-items-dropped count as `unsupported_dropped` inside a nested
`consumer` namespace — the only integer it ever reports — and its type has
no error channel, so no error can reach the exporter. -/
theorem C5_snapshot_report (s : OtlpState) (c : monitoredConsumer)
    (h : s.currentMonitoredConsumer = some c) :
    collectMetricsMonitoring s =
      [VisitorEvent.registryStart, VisitorEvent.registryFinished,
       VisitorEvent.key "consumer", VisitorEvent.registryStart,
       VisitorEvent.key "unsupported_dropped",
       VisitorEvent.intVal c.consumer.stats.unsupportedMetricsDropped,
       VisitorEvent.registryFinished] ∧
    intVals (collectMetricsMonitoring s) =
      [c.consumer.stats.unsupportedMetricsDropped] := by
  refine ⟨?_, ?_⟩ <;>
    simp [collectMetricsMonitoring, h,
      monitoredConsumer.collectMetricsMonitoring, monitoring.ReportNamespace,
      monitoring.ReportInt, intVals]

/-- C5 (witness): the full report trace at a concrete state whose
installed consumer's snapshot has dropped count 42. -/
theorem C5_snapshot_report_witness :
    collectMetricsMonitoring exampleStateWithConsumer =
      [VisitorEvent.registryStart, VisitorEvent.registryFinished,
       VisitorEvent.key "consumer", VisitorEvent.registryStart,
       VisitorEvent.key "unsupported_dropped", VisitorEvent.intVal 42,
       VisitorEvent.registryFinished] ∧
    intVals (collectMetricsMonitoring exampleStateWithConsumer) = [42] :=
  C5_snapshot_report exampleStateWithConsumer exampleConsumer rfl

/-- C8: the current-consumer slot is last-write-wins — after installing A
and then B, a read of the slot yields B, and the snapshot reporter's
output is exactly B's report, so the only drop count reachable through the
snapshot path is B's downstream processor's. -/
theorem C8_last_write_wins (s : OtlpState) (A B : monitoredConsumer) :
    (setCurrentMonitoredConsumer B
        (setCurrentMonitoredConsumer A s)).currentMonitoredConsumer =
      some B ∧
    collectMetricsMonitoring
        (setCurrentMonitoredConsumer B (setCurrentMonitoredConsumer A s)) =
      B.collectMetricsMonitoring ∧
    intVals (collectMetricsMonitoring
        (setCurrentMonitoredConsumer B (setCurrentMonitoredConsumer A s))) =
      [B.consumer.stats.unsupportedMetricsDropped] := by
  refine ⟨rfl, rfl, ?_⟩
  simp [collectMetricsMonitoring, setCurrentMonitoredConsumer,
    monitoredConsumer.collectMetricsMonitoring, monitoring.ReportNamespace,
    monitoring.ReportInt, intVals]

/-- C10: only the metrics registry carries the `consumer` function entry
(added by the package initializer); the traces registry holds exactly the
four call counters and no function entry at all; and the only drop
statistic the registered callback ever reports is the current consumer's
`UnsupportedMetricsDropped`. -/
theorem C10_consumer_entry_only_metrics :
    RegistryEntry.func "consumer" ∈ gRPCMetricsRegistryEntries ∧
    (∀ n, RegistryEntry.func n ∉ gRPCTracesRegistryEntries) ∧
    gRPCTracesRegistryEntries = monitoringKeys.map RegistryEntry.counter ∧
    (∀ (s : OtlpState) (c : monitoredConsumer),
      s.currentMonitoredConsumer = some c →
        intVals (collectMetricsMonitoring s) =
          [c.consumer.stats.unsupportedMetricsDropped]) := by
  refine ⟨?_, ?_, rfl, ?_⟩
  · simp [gRPCMetricsRegistryEntries, MonitoringMapForRegistry, monitoringKeys]
  · intro n
    simp [gRPCTracesRegistryEntries, MonitoringMapForRegistry, monitoringKeys]
  · intro s c h
    simp [collectMetricsMonitoring, h,
      monitoredConsumer.collectMetricsMonitoring, monitoring.ReportNamespace,
      monitoring.ReportInt, intVals]

/-- C10 (witness): the callback's reported drop statistic at a concrete
state whose installed consumer's snapshot has dropped count 42. -/
theorem C10_consumer_entry_witness :
    intVals (collectMetricsMonitoring exampleStateWithConsumer) =
      [(42 : Int)] :=
  C10_consumer_entry_only_metrics.2.2.2 exampleStateWithConsumer
    exampleConsumer rfl
